import Mathlib

/-!
Shallow embedding of the Beancount-CSVImporter repository
(src/importers/CSVImporter.py and src/config.py) in Lean 4.

Modelling conventions, stated once here:

* Python exceptions are modelled with `Except String`; the error string names
  the Python exception that the corresponding line raises.
* Python `Decimal` values are modelled by `Rat` (the amounts handled by the
  program are exact decimal fractions).
* The CSV layer (`csv.reader` over `io.StringIO`) is modelled at the level of
  already-split rows: a file body is a `List (List String)` of cell lists.
  `strip_blank` re-emits each cell quoted after `str.strip`, and the second
  `csv.reader` pass recovers exactly the stripped cells, so the composite is
  cell-wise trimming on the row structure (cells in these files contain no
  double quotes or newlines, for which the round trip would differ).
* `csv.Sniffer().has_header` is a heuristic on the text; it is modelled as an
  oracle boolean parameter `hasHeader` threaded to every entry point, so all
  theorems hold for every verdict the sniffer could return.
* `parse_date_liberally` (beancount) and `dateutil.parser.parse` accept many
  formats; the files handled by this importer use ISO `YYYY-MM-DD` dates with
  an optional trailing time of day, and the model parses exactly that shape,
  failing on anything else just as the library fails on unparsable text.
* String helpers (`pySplit`, `pyStrip`, `pyStartsWith`, `strContains`) are
  defined structurally over `List Char` so that all definitions evaluate by
  kernel reduction; they implement Python `str.split(sep)`, `str.strip()`,
  `str.startswith` and `str.find(...) != -1` for the single-character
  separators the source uses.
* Python `re.search(pattern, text)` is used only on patterns that are
  `|`-alternations of literal keywords (the keyword tables of config.py);
  `reSearch` implements exactly that pattern language.
-/

namespace CSVImp

/-- Python str.split for a single-character separator: `"".split(sep) = [""]`,
separators at the ends produce empty fields. -/
def splitChar (sep : Char) (l : List Char) : List (List Char) :=
  l.foldr
    (fun c acc =>
      if c = sep then [] :: acc
      else
        match acc with
        | [] => [[c]]
        | t :: ts => (c :: t) :: ts)
    [[]]

/-- Python `s.split(sep)` for a one-character separator, on `String`. -/
def pySplit (s : String) (sep : Char) : List String :=
  (splitChar sep s.toList).map String.mk

/-- Python `str.strip()`: drop leading and trailing whitespace. -/
def pyStrip (s : String) : String :=
  String.mk (((s.toList.dropWhile Char.isWhitespace).reverse.dropWhile
    Char.isWhitespace).reverse)

/-- Python `s.startswith(p)`. -/
def pyStartsWith (s p : String) : Bool :=
  p.toList.isPrefixOf s.toList

/-- Contiguous-subsequence test over character lists. -/
def charsInfix (sub : List Char) : List Char → Bool
  | [] => sub.isEmpty
  | c :: rest => sub.isPrefixOf (c :: rest) || charsInfix sub rest

/-- Python `s.find(sub) != -1`: substring containment. -/
def strContains (s sub : String) : Bool :=
  charsInfix sub.toList s.toList

/-- The set of interpretable columns (class Col of CSVImporter.py). -/
inductive Col where
  | DATE
  | TXN_DATE
  | TXN_TIME
  | PAYEE
  | NARRATION
  | AMOUNT
  | AMOUNT_DEBIT
  | AMOUNT_CREDIT
  | STATUS
  | TYPE
  | BALANCE
  | DRCR
  | ACCOUNT
deriving DecidableEq, BEq

/-- Debit / credit classification (class Drcr of CSVImporter.py). -/
inductive Drcr where
  | DEBIT
  | CREDIT
  | UNCERTAINTY
deriving DecidableEq, BEq

/-- A calendar date, as produced by the date parsing in the importer. -/
structure Date where
  year : Nat
  month : Nat
  day : Nat
deriving DecidableEq

/-- Key for comparing valid calendar dates; agrees with the chronological
order used by Python datetime.date comparisons. -/
def Date.key (d : Date) : Nat :=
  d.year * 10000 + d.month * 100 + d.day

def isLeapYear (y : Nat) : Bool :=
  y % 4 == 0 && (y % 100 != 0 || y % 400 == 0)

def daysInMonth (y m : Nat) : Nat :=
  if m = 2 then (if isLeapYear y then 29 else 28)
  else if m = 4 ∨ m = 6 ∨ m = 9 ∨ m = 11 then 30
  else 31

/-- Python `entry.date + datetime.timedelta(days=1)`. -/
def Date.nextDay (d : Date) : Date :=
  if d.day < daysInMonth d.year d.month then ⟨d.year, d.month, d.day + 1⟩
  else if d.month < 12 then ⟨d.year, d.month + 1, 1⟩
  else ⟨d.year + 1, 1, 1⟩

/-- Digits of a decimal numeral to a natural number; `none` when the
character list is empty or contains a non-digit. -/
def digitsToNatAux : List Char → Nat → Option Nat
  | [], acc => some acc
  | c :: rest, acc =>
      if c.isDigit then digitsToNatAux rest (acc * 10 + (c.toNat - 48))
      else none

def digitsToNat : List Char → Option Nat
  | [] => none
  | l => digitsToNatAux l 0

def natOfDigits (s : String) : Option Nat := digitsToNat s.toList

/-- ISO date parsing: `YYYY-MM-DD`, optionally followed by a space and a time
of day.  Validates the month and the day as datetime.date does. -/
def parseIsoDate (s : String) : Option Date :=
  let datePart := (pySplit s ' ').headD s
  match pySplit datePart '-' with
  | [ys, ms, ds] =>
      match natOfDigits ys, natOfDigits ms, natOfDigits ds with
      | some y, some m, some d =>
          if 1 ≤ m ∧ m ≤ 12 ∧ 1 ≤ d ∧ d ≤ daysInMonth y m then
            some ⟨y, m, d⟩
          else none
      | _, _, _ => none
  | _ => none

/-- beancount parse_date_liberally.  Passing None raises a TypeError inside
dateutil; an unparsable string raises a ValueError. -/
def parse_date_liberally (s : Option String) : Except String Date :=
  match s with
  | none => .error "TypeError: parser must be a string or character stream"
  | some str =>
      match parseIsoDate str with
      | some d => .ok d
      | none => .error "ValueError: unknown date format"

/-- Python `str(dateutil.parser.parse(txn_time).time())`: for the
`YYYY-MM-DD HH:MM:SS` cells of these files this is the text after the date,
and `00:00:00` when there is no time part; unparsable text raises. -/
def parseTimeText (s : String) : Except String String :=
  if (parseIsoDate s).isSome then
    match pySplit s ' ' with
    | [_, t] => .ok t
    | _ => .ok "00:00:00"
  else .error "ValueError: unknown time format"

/-- Scanner for the regex `\d+\.?\d*` (re.findall of cast_to_decimal):
left-to-right maximal munch; arguments are the remaining input, the
accumulator of the token in progress (reversed) and whether that token has
already consumed its decimal point. -/
def scanTokens : List Char → List Char → Bool → List (List Char)
  | [], acc, _ => if acc = [] then [] else [acc.reverse]
  | c :: rest, acc, dot =>
      if acc = [] then
        if c.isDigit then scanTokens rest [c] false
        else scanTokens rest [] false
      else
        if c.isDigit then scanTokens rest (c :: acc) dot
        else if c = '.' ∧ dot = false then scanTokens rest (c :: acc) true
        else acc.reverse :: scanTokens rest [] false

/-- Value of a numeric token produced by `scanTokens` (shape
`digits`, `digits.`, or `digits.digits`), as an exact decimal. -/
def decOfToken (t : List Char) : Rat :=
  match splitChar '.' t with
  | [i] => mkRat (Int.ofNat ((digitsToNat i).getD 0)) 1
  | [i, f] =>
      mkRat (Int.ofNat ((digitsToNat (i ++ f)).getD 0)) (10 ^ f.length)
  | _ => 0

/-- cast_to_decimal: None passes through; otherwise commas are removed, the
numeric substrings matching `\d+\.?\d*` are collected, and exactly one must
be present (the assert), whose decimal value is returned. -/
def cast_to_decimal (amount : Option String) : Except String (Option Rat) :=
  match amount with
  | none => .ok none
  | some a =>
      let cleaned := a.toList.filter (fun c => c ≠ ',')
      match scanTokens cleaned [] false with
      | [t] => .ok (some (decOfToken t))
      | _ => .error "AssertionError: len(numbers) == 1"

/-- A resolved column mapping: Col to integer index (the `iconfig` dicts). -/
def lookupCol (ic : List (Col × Nat)) (c : Col) : Option Nat :=
  List.lookup c ic

/-- Python `row[i]` on a list of cells: IndexError when out of range. -/
def pyGet (row : List String) (i : Nat) : Except String String :=
  match row.get? i with
  | some v => .ok v
  | none => .error "IndexError: list index out of range"

/-- get_amounts (CSVImporter.py lines 109-147).  Returns the pair
(debit-amount, credit-amount); the debit side is negated.  Note the
source-faithful details: with a single AMOUNT column only one side of the
pair is a string, so `is_zero_amount` (which requires both sides non-None
and zero) can only hold in the separate-columns case; the final conversion
casts a cell only when the string is truthy (non-empty). -/
def get_amounts (iconfig : List (Col × Nat)) (row : List String) (drcr : Drcr)
    (allow_zero_amounts : Bool) : Except String (Option Rat × Option Rat) := do
  let (debit, credit) ←
    match lookupCol iconfig Col.AMOUNT with
    | some i => do
        let amount ← pyGet row i
        if drcr = Drcr.CREDIT then
          pure ((none : Option String), some amount)
        else
          pure (some amount, (none : Option String))
    | none => do
        let d ← match lookupCol iconfig Col.AMOUNT_DEBIT with
          | some i => do pure (some (← pyGet row i))
          | none => pure (none : Option String)
        let c ← match lookupCol iconfig Col.AMOUNT_CREDIT with
          | some i => do pure (some (← pyGet row i))
          | none => pure (none : Option String)
        pure (d, c)
  let isZero : Bool ←
    match credit with
    | none => pure false
    | some cs => do
        let cv ← cast_to_decimal (some cs)
        if cv = some 0 then
          match debit with
          | none => pure false
          | some ds => do
              let dv ← cast_to_decimal (some ds)
              pure (decide (dv = some 0))
        else pure false
  if !allow_zero_amounts && isZero then
    pure (none, none)
  else do
    let dres ← match debit with
      | some ds =>
          if ds ≠ "" then do
            let dv ← cast_to_decimal (some ds)
            pure (dv.map fun x => -x)
          else pure (none : Option Rat)
      | none => pure (none : Option Rat)
    let cres ← match credit with
      | some cs =>
          if cs ≠ "" then cast_to_decimal (some cs)
          else pure (none : Option Rat)
      | none => pure (none : Option Rat)
    pure (dres, cres)

/-- Second and later branches of get_DRCR_status: the STATUS column when
present, else inference from which separate amount cell is populated. -/
def drcrFromStatus (iconfig : List (Col × Nat)) (row : List String)
    (drcr_dict : List (String × Drcr)) : Except String Drcr := do
  match lookupCol iconfig Col.STATUS with
  | some j => do
      let cell ← pyGet row j
      pure ((List.lookup cell drcr_dict).getD Drcr.UNCERTAINTY)
  | none =>
      match lookupCol iconfig Col.AMOUNT_CREDIT with
      | some k => do
          let c ← pyGet row k
          if c ≠ "" then pure Drcr.CREDIT
          else drcrFromDebitCell iconfig row
      | none => drcrFromDebitCell iconfig row
where
  drcrFromDebitCell (iconfig : List (Col × Nat)) (row : List String) :
      Except String Drcr := do
    match lookupCol iconfig Col.AMOUNT_DEBIT with
    | some l => do
        let d ← pyGet row l
        if d ≠ "" then pure Drcr.DEBIT else pure Drcr.UNCERTAINTY
    | none => pure Drcr.UNCERTAINTY

/-- get_DRCR_status (CSVImporter.py lines 150-167).  The try/except KeyError
around the lookups is modelled by `Option.getD Drcr.UNCERTAINTY`; an
IndexError from a row access is not caught and propagates. -/
def get_DRCR_status (iconfig : List (Col × Nat)) (row : List String)
    (drcr_dict : List (String × Drcr)) : Except String Drcr := do
  match lookupCol iconfig Col.DRCR with
  | some i => do
      let cell ← pyGet row i
      if cell ≠ "" then
        pure ((List.lookup cell drcr_dict).getD Drcr.UNCERTAINTY)
      else
        drcrFromStatus iconfig row drcr_dict
  | none => drcrFromStatus iconfig row drcr_dict

/-- re.search for the pattern language used by the keyword tables:
a `|`-alternation of literal keywords matches anywhere in the text. -/
def reSearch (keywords text : String) : Bool :=
  (pySplit keywords '|').any (fun kw => strContains text kw)

/-- Loop body of mapping_account: first non-DEFAULT key, in table order,
whose pattern matches the keyword; a None keyword raises TypeError inside
re.search as soon as a non-DEFAULT key is tried. -/
def mappingGo (text : Option String) :
    List (String × String) → Except String (Option String)
  | [] => .ok none
  | (k, v) :: rest =>
      if k = "DEFAULT" then mappingGo text rest
      else
        match text with
        | none => .error "TypeError: expected string or bytes-like object"
        | some t => if reSearch k t then .ok (some v) else mappingGo text rest

/-- mapping_account (CSVImporter.py lines 455-475): requires a DEFAULT entry,
then first-match-wins over the table in definition order. -/
def mapping_account (account_map : List (String × String))
    (keyword : Option String) : Except String String := do
  match List.lookup "DEFAULT" account_map with
  | none => .error "KeyError: DEFAULT is not in account_map"
  | some dflt => do
      let r ← mappingGo keyword account_map
      pure (r.getD dflt)

/-- A column mapping value: a column name to resolve against the header, or a
raw positional index (the values of the `config` dicts). -/
inductive ColRef where
  | name (s : String)
  | idx (i : Nat)
deriving DecidableEq

/-- strip_blank (CSVImporter.py lines 97-106) at the row level: each cell is
stripped; the quote-and-rejoin round trip through csv preserves the row
structure for the quote-free cells of these files. -/
def strip_blank (contents : List (List String)) : List (List String) :=
  contents.map (fun row => row.map pyStrip)

/-- The field_map dict comprehension of normalize_config: header name
(stripped) to index, a later duplicate header name overriding an earlier
one. -/
def fieldMapLookup (header : List String) (nm : String) : Option Nat :=
  ((header.enum.filter (fun p => pyStrip p.2 = nm)).getLast?).map Prod.fst

/-- The per-field resolution loop of normalize_config: a string field is
looked up in the field map (KeyError when the named column is absent from
the header), an integer field passes through. -/
def resolveFields (header : List String) :
    List (Col × ColRef) → Except String (List (Col × Nat))
  | [] => .ok []
  | (ft, f) :: rest => do
      let i ← match f with
        | ColRef.name s =>
            match fieldMapLookup header s with
            | some i => pure i
            | none => Except.error "KeyError: field not found in header"
        | ColRef.idx i => pure i
      let tail ← resolveFields header rest
      pure ((ft, i) :: tail)

/-- normalize_config (CSVImporter.py lines 412-452).  The sniffer verdict is
the oracle parameter `hasHeader`.  The skip_lines loop slices the raw text
line by line, which at the row level is `List.drop`. -/
def normalize_config (config : List (Col × ColRef)) (head : List (List String))
    (skip_lines : Nat) (hasHeader : Bool) :
    Except String (List (Col × Nat) × Bool) := do
  let head1 := head.drop skip_lines
  let head2 := strip_blank head1
  if hasHeader then do
    let header ← match head2.head? with
      | some h => pure h
      | none => Except.error "StopIteration"
    let index_config ← resolveFields header config
    pure (index_config, true)
  else
    if config.any (fun fc =>
        match fc.2 with | ColRef.name _ => true | ColRef.idx _ => false) then
      Except.error "ValueError: csv config without header has non-index fields"
    else
      pure (config.map (fun fc =>
        (fc.1, match fc.2 with | ColRef.idx i => i | ColRef.name _ => 0)), false)

/-- The three keyword-to-account tables of the account_map dict of
config.py. -/
structure AccountMap where
  assets : List (String × String)
  debit : List (String × String)
  credit : List (String × String)
deriving DecidableEq

/-- The Importer constructor state (CSVImporter.py lines 173-206).  The
`default_account` parameter of the Python constructor is accepted and then
never stored, so it has no field here; `fname_pre` is the stored
file-name-prefix used by identify. -/
structure Importer where
  config : List (Col × ColRef)
  currency : String
  fname_pre : String
  skip_lines : Nat
  drcr_dict : List (String × Drcr)
  refund_keyword : Option String
  account_map : AccountMap

/-- The beancount cache file handle: name, MIME type and contents. -/
structure FileMemo where
  name : String
  mimetype : String
  contents : List (List String)

/-- Python os.path.basename for forward-slash paths. -/
def basename (p : String) : String :=
  (pySplit p '/').getLastD p

/-- identify (CSVImporter.py lines 231-238).  When normalize_config raises
(a declared named column absent from the header, or a headerless file with
named fields) the exception propagates out of identify. -/
def identify (imp : Importer) (file : FileMemo) (hasHeader : Bool) :
    Except String Bool := do
  if file.mimetype ≠ "text/csv" then pure false
  else if !pyStartsWith (basename file.name) imp.fname_pre then pure false
  else do
    let (iconfig, _) ←
      normalize_config imp.config file.contents imp.skip_lines hasHeader
    pure (decide (iconfig.length = imp.config.length))

/-- file_date (CSVImporter.py lines 208-229).  When the DATE role resolves,
line 214 builds the row reader as `csv.reader(open(io.StringIO(...)))`;
Python open() rejects a StringIO argument, so a TypeError is raised before
any row is read and no maximum date is ever computed.  When DATE is absent
the method falls through and returns None. -/
def file_date (imp : Importer) (file : FileMemo) (hasHeader : Bool) :
    Except String (Option Date) := do
  let (iconfig, _has_header) ←
    normalize_config imp.config file.contents imp.skip_lines hasHeader
  if (lookupCol iconfig Col.DATE).isSome then
    Except.error "TypeError: expected str, bytes or os.PathLike object, not StringIO"
  else
    pure none

/-- Metadata values stored in entry metadata. -/
inductive MetaVal where
  | s (v : String)
  | n (v : Nat)
  | d (v : Date)
  | q (v : Rat)
deriving DecidableEq

/-- Entry metadata: data.new_metadata plus the optional date and time keys. -/
abbrev Meta := List (String × MetaVal)

structure Amount where
  number : Rat
  currency : String
deriving DecidableEq

/-- Python `-units`. -/
def Amount.neg (a : Amount) : Amount := ⟨-a.number, a.currency⟩

/-- One leg of a transaction: account plus optional amount (beancount
data.Posting with the cost, price and flag fields always None here). -/
structure Posting where
  account : String
  units : Option Amount
deriving DecidableEq

/-- beancount data.Transaction as built by extract (tags and links are
always the empty set and are omitted). -/
structure Transaction where
  meta : Meta
  date : Date
  flag : String
  payee : Option String
  narration : Option String
  postings : List Posting
deriving DecidableEq

/-- beancount data.Balance as built by extract (tolerance and diff_amount
are always None and are omitted).  The account argument is the `account`
loop variable, an optional string. -/
structure BalanceEntry where
  meta : Meta
  date : Date
  account : Option String
  amount : Amount
deriving DecidableEq

inductive Entry where
  | txn (t : Transaction)
  | bal (b : BalanceEntry)
deriving DecidableEq

/-- The `get` closure of extract: `row[iconfig[ftype]] if ftype in iconfig
else None`; the row access can raise IndexError. -/
def rowGet (iconfig : List (Col × Nat)) (row : List String) (ftype : Col) :
    Except String (Option String) :=
  match lookupCol iconfig ftype with
  | some i => do pure (some (← pyGet row i))
  | none => pure none

/-- The default-account arm of the UNCERTAINTY branch:
`self.account_map["assets"]["DEFAULT"]` (KeyError when absent) posted with
the raw signed amount. -/
def defaultAssetsPosting (imp : Importer) (units : Amount) :
    Except String (List Posting) :=
  match List.lookup "DEFAULT" imp.account_map.assets with
  | none => Except.error "KeyError: DEFAULT"
  | some d => .ok [⟨d, some units⟩]

/-- The body of the per-amount loop of extract (CSVImporter.py lines
318-377), for one non-None resolved amount. -/
def buildPostings (imp : Importer) (drcr : Drcr) (account : Option String)
    (payee narration : Option String) (txType : String) (amount : Rat) :
    Except String (List Posting) := do
  let units : Amount := ⟨amount, imp.currency⟩
  if drcr = Drcr.UNCERTAINTY then
    match account with
    | some acc =>
        match pySplit acc '-' with
        | [a0, a1] => do
            let primary ← mapping_account imp.account_map.assets (some a1)
            let secondary ← mapping_account imp.account_map.assets (some a0)
            pure [⟨primary, some units.neg⟩, ⟨secondary, none⟩]
        | _ => defaultAssetsPosting imp units
    | none => defaultAssetsPosting imp units
  else do
    let primary ← mapping_account imp.account_map.assets account
    let payeeNarration ← match payee, narration with
      | some p, some n => pure (p ++ n)
      | _, _ =>
          Except.error "TypeError: unsupported operand types for +"
    let isRefund := match imp.refund_keyword with
      | none => false
      | some rk => rk ≠ "" && strContains payeeNarration rk
    let tbl := if drcr = Drcr.CREDIT ∧ isRefund = false then
        imp.account_map.credit
      else imp.account_map.debit
    let secondary ← mapping_account tbl (some (payeeNarration ++ txType))
    pure [⟨primary, some units⟩, ⟨secondary, none⟩]

/-- The metadata construction of the row loop: data.new_metadata plus the
optional date and time keys (CSVImporter.py lines 292-297). -/
def buildMeta (fname : String) (index : Nat)
    (txnDate txnTime : Option String) : Except String Meta := do
  let meta0 : Meta := [("filename", MetaVal.s fname), ("lineno", MetaVal.n index)]
  let meta1 ← match txnDate with
    | none => pure meta0
    | some td => do
        let d ← parse_date_liberally (some td)
        pure (meta0 ++ [("date", MetaVal.d d)])
  match txnTime with
  | none => pure meta1
  | some tt => do
      let t ← parseTimeText tt
      pure (meta1 ++ [("time", MetaVal.s t)])

/-- The body of the row loop of extract for a row that passed the blank,
comment and dash checks (CSVImporter.py lines 275-381).  Returns the
transaction for the row (None when both resolved amounts are None and the
row is skipped) together with the value of the `account` loop variable. -/
def processRow (imp : Importer) (iconfig : List (Col × Nat)) (fname : String)
    (index : Nat) (row : List String) :
    Except String (Option Transaction × Option String) := do
  let _status ← rowGet iconfig row Col.STATUS
  let dateStr ← rowGet iconfig row Col.DATE
  let txnDate ← rowGet iconfig row Col.TXN_DATE
  let txnTime ← rowGet iconfig row Col.TXN_TIME
  let account ← rowGet iconfig row Col.ACCOUNT
  let txType0 ← rowGet iconfig row Col.TYPE
  let txType := txType0.getD ""
  let payee0 ← rowGet iconfig row Col.PAYEE
  let payee := payee0.map pyStrip
  let narration0 ← rowGet iconfig row Col.NARRATION
  let narration := narration0.map pyStrip
  let meta ← buildMeta fname index txnDate txnTime
  let date ← parse_date_liberally dateStr
  let drcr ← get_DRCR_status iconfig row imp.drcr_dict
  let (amountDebit, amountCredit) ← get_amounts iconfig row drcr false
  if amountDebit = none ∧ amountCredit = none then
    pure (none, account)
  else do
    let posts1 ← match amountDebit with
      | none => pure []
      | some a => buildPostings imp drcr account payee narration txType a
    let posts2 ← match amountCredit with
      | none => pure []
      | some a => buildPostings imp drcr account payee narration txType a
    pure (some ⟨meta, date, "*", payee, narration, posts1 ++ posts2⟩, account)

/-- State carried by the row loop of extract: the transactions so far, the
first and last processed row, and the final values of the `account` and
`index` loop variables. -/
structure LoopState where
  entries : List Transaction
  first_row : Option (List String)
  last_row : Option (List String)
  lastAccount : Option String
  lastIndex : Nat
deriving DecidableEq

def initState : LoopState := ⟨[], none, none, none, 0⟩

/-- Python `row[0]` for the skip tests of the row loop (the row is known to
be non-empty there). -/
def firstCell (row : List String) : String :=
  row.headD ""

/-- The row loop of extract (CSVImporter.py lines 262-381): skip empty rows
and `#` comment rows, stop at a dash separator row, process the rest. -/
def extractLoop (imp : Importer) (iconfig : List (Col × Nat)) (fname : String) :
    Nat → List (List String) → LoopState → Except String LoopState
  | _, [], st => .ok st
  | index, row :: rest, st =>
      if row = [] then
        extractLoop imp iconfig fname (index + 1) rest { st with lastIndex := index }
      else if pyStartsWith (firstCell row) "#" then
        extractLoop imp iconfig fname (index + 1) rest { st with lastIndex := index }
      else if pyStartsWith (firstCell row) "-----------" then
        .ok { st with lastIndex := index }
      else do
        let st1 : LoopState :=
          { st with
            lastIndex := index
            first_row := some (st.first_row.getD row)
            last_row := some row }
        let (otxn, acc) ← processRow imp iconfig fname index row
        let st2 : LoopState :=
          { st1 with
            lastAccount := acc
            entries := match otxn with
              | some t => st1.entries ++ [t]
              | none => st1.entries }
        extractLoop imp iconfig fname (index + 1) rest st2

/-- The `next(reader)` garbage-line skipping of extract: StopIteration when
the file has fewer rows than skip_lines. -/
def skipRows (n : Nat) (rows : List (List String)) :
    Except String (List (List String)) :=
  if rows.length < n then Except.error "StopIteration"
  else .ok (rows.drop n)

/-- The header skip of extract. -/
def skipHeader (hasHeader : Bool) (rows : List (List String)) :
    Except String (List (List String)) :=
  if hasHeader then
    match rows with
    | [] => Except.error "StopIteration"
    | _ :: rest => .ok rest
  else .ok rows

/-- The first/last-date computation of extract (lines 384-385):
`parse_date_liberally(get(first_row, Col.DATE))`.  When DATE is absent the
None date reaches the parser; when DATE is present and no row was ever
processed the subscript of None raises. -/
def firstLastDate (iconfig : List (Col × Nat)) (orow : Option (List String)) :
    Except String Date :=
  match lookupCol iconfig Col.DATE with
  | none => parse_date_liberally none
  | some i =>
      match orow with
      | none => Except.error "TypeError: NoneType is not subscriptable"
      | some r => do
          let c ← pyGet r i
          parse_date_liberally (some c)

/-- The final metadata cleanup of extract (lines 406-407): pop the balance
key from every entry. -/
def popBalanceMeta (e : Entry) : Entry :=
  match e with
  | Entry.txn t => Entry.txn { t with meta := t.meta.filter (fun kv => kv.1 ≠ "balance") }
  | Entry.bal b => Entry.bal { b with meta := b.meta.filter (fun kv => kv.1 ≠ "balance") }

/-- The balance-assertion phase of extract (lines 392-409): when a BALANCE
column is declared and at least one transaction was produced, read the
balance metadata of the last transaction of the (possibly reversed) list
and, when present, append a Balance entry dated one day later for the
`account` value of the last processed row; then strip the balance metadata
key from every entry. -/
def balancePhase (imp : Importer) (iconfig : List (Col × Nat)) (fname : String)
    (st : LoopState) (txns : List Transaction) : Except String (List Entry) := do
  let entries : List Entry := txns.map Entry.txn
  let entries ←
    if (lookupCol iconfig Col.BALANCE).isSome ∧ txns ≠ [] then
      match txns.getLast? with
      | none => pure entries
      | some entry =>
          match List.lookup "balance" entry.meta with
          | none => pure entries
          | some bv =>
              match bv with
              | MetaVal.q v =>
                  pure (entries ++ [Entry.bal
                    ⟨[("filename", MetaVal.s fname), ("lineno", MetaVal.n st.lastIndex)],
                      entry.date.nextDay, st.lastAccount, ⟨v, imp.currency⟩⟩])
              | _ => Except.error "TypeError: balance metadata is not a Decimal"
    else pure entries
  pure (entries.map popBalanceMeta)

/-- extract (CSVImporter.py lines 240-409): normalize the configuration,
skip garbage lines and the header, run the row loop, detect the file order
from the first and last processed row dates, reverse when not strictly
ascending, then run the balance phase. -/
def extract (imp : Importer) (file : FileMemo) (hasHeader : Bool) :
    Except String (List Entry) := do
  let (iconfig, has_header) ←
    normalize_config imp.config file.contents imp.skip_lines hasHeader
  let rows0 := strip_blank file.contents
  let rows1 ← skipRows imp.skip_lines rows0
  let rows2 ← skipHeader has_header rows1
  let st ← extractLoop imp iconfig file.name 1 rows2 initState
  let firstD ← firstLastDate iconfig st.first_row
  let lastD ← firstLastDate iconfig st.last_row
  let txns := if firstD.key < lastD.key then st.entries else st.entries.reverse
  balancePhase imp iconfig file.name st txns

instance instDecEqExcept {ε α : Type} [DecidableEq ε] [DecidableEq α] :
    DecidableEq (Except ε α) := fun x y =>
  match x, y with
  | Except.error e, Except.error f =>
      if h : e = f then Decidable.isTrue (congrArg Except.error h)
      else Decidable.isFalse (fun c => h (Except.error.inj c))
  | Except.ok a, Except.ok b =>
      if h : a = b then Decidable.isTrue (congrArg Except.ok h)
      else Decidable.isFalse (fun c => h (Except.ok.inj c))
  | Except.error _, Except.ok _ => Decidable.isFalse (fun c => Except.noConfusion c)
  | Except.ok _, Except.error _ => Decidable.isFalse (fun c => Except.noConfusion c)

/-- A minimal keyword table set with the mandatory DEFAULT entries. -/
def plainTables : AccountMap :=
  ⟨[("DEFAULT", "Unknown")], [("DEFAULT", "Expenses:Unknown")],
    [("DEFAULT", "Income:Unknown")]⟩

def c1imp : Importer :=
  { config := [(Col.DATE, ColRef.idx 0)]
    currency := "CNY"
    fname_pre := "stmt"
    skip_lines := 0
    drcr_dict := []
    refund_keyword := none
    account_map := plainTables }

def c1file : FileMemo :=
  ⟨"d/stmt1.csv", "text/csv", [["2024-03-01"], ["2024-03-05"]]⟩

def c3imp : Importer :=
  { config := [(Col.DATE, ColRef.idx 0), (Col.ACCOUNT, ColRef.idx 1),
      (Col.AMOUNT, ColRef.idx 2), (Col.BALANCE, ColRef.idx 3),
      (Col.PAYEE, ColRef.idx 4), (Col.NARRATION, ColRef.idx 5)]
    currency := "CNY"
    fname_pre := "t"
    skip_lines := 0
    drcr_dict := []
    refund_keyword := none
    account_map := plainTables }

def c3file : FileMemo :=
  ⟨"d/t1.csv", "text/csv",
    [["2024-05-01", "acct", "100", "523.10", "p", "n"]]⟩

def c4imp : Importer :=
  { config := [(Col.DATE, ColRef.idx 0), (Col.AMOUNT, ColRef.idx 1)]
    currency := "CNY"
    fname_pre := "t"
    skip_lines := 0
    drcr_dict := []
    refund_keyword := none
    account_map := plainTables }

def c4file : FileMemo :=
  ⟨"d/t1.csv", "text/csv", [["2024-03-01", "10"], ["2024-03-01", "20"]]⟩

def c4txn1 : Transaction :=
  ⟨[("filename", MetaVal.s "d/t1.csv"), ("lineno", MetaVal.n 1)],
    ⟨2024, 3, 1⟩, "*", none, none,
    [⟨"Unknown", some ⟨-10, "CNY"⟩⟩]⟩

def c4txn2 : Transaction :=
  ⟨[("filename", MetaVal.s "d/t1.csv"), ("lineno", MetaVal.n 2)],
    ⟨2024, 3, 1⟩, "*", none, none,
    [⟨"Unknown", some ⟨-20, "CNY"⟩⟩]⟩

/-- Single-row input used to instantiate the amended ordering theorem. -/
def c4wfile : FileMemo :=
  ⟨"d/t2.csv", "text/csv", [["2024-03-01", "10"]]⟩

def c4wtxn : Transaction :=
  ⟨[("filename", MetaVal.s "d/t2.csv"), ("lineno", MetaVal.n 1)],
    ⟨2024, 3, 1⟩, "*", none, none,
    [⟨"Unknown", some ⟨-10, "CNY"⟩⟩]⟩

def c4wst : LoopState :=
  ⟨[c4wtxn], some ["2024-03-01", "10"], some ["2024-03-01", "10"], none, 1⟩

def c2imp : Importer :=
  { config := [(Col.DATE, ColRef.name "date")]
    currency := "CNY"
    fname_pre := "stmt"
    skip_lines := 0
    drcr_dict := []
    refund_keyword := none
    account_map := plainTables }

def c2file : FileMemo :=
  ⟨"d/stmt1.csv", "text/csv", [["other"], ["2024-01-01"]]⟩

def c2okimp : Importer :=
  { config := [(Col.DATE, ColRef.idx 0)]
    currency := "CNY"
    fname_pre := "stmt"
    skip_lines := 0
    drcr_dict := []
    refund_keyword := none
    account_map := plainTables }

def c2badfile : FileMemo :=
  ⟨"d/stmt1.txt", "text/plain", [["2024-01-01"]]⟩

/-- The assets keyword table of config.py. -/
def assetsTable : List (String × String) :=
  [("DEFAULT", "Unknown"),
   ("0000|春田花花银行", "Liabilities:CreditCard:SFFB:0000"),
   ("余额宝", "Assets:Alipay:YuEBao"),
   ("零钱", "Assets:Wechat:MiniFund")]

def c6imp : Importer :=
  { config := []
    currency := "CNY"
    fname_pre := ""
    skip_lines := 0
    drcr_dict := []
    refund_keyword := some "退款"
    account_map := ⟨assetsTable, [("DEFAULT", "Expenses:Unknown")],
      [("DEFAULT", "Income:Unknown")]⟩ }

def c7table : List (String × String) :=
  [("A|B", "X"), ("A", "Y"), ("DEFAULT", "Z")]

/-- Holds when every row of the list, scanned in file order, is skipped by
the row loop (empty or a `#` comment) until either the list ends or a dash
separator row stops the loop: exactly the files in which no data row
qualifies for processing. -/
def noQualifyingRow : List (List String) → Bool
  | [] => true
  | r :: rest =>
      if r = [] then noQualifyingRow rest
      else if pyStartsWith (firstCell r) "#" then noQualifyingRow rest
      else pyStartsWith (firstCell r) "-----------"

def c10file : FileMemo :=
  ⟨"d/t1.csv", "text/csv", [["#comment"], [], ["-----------x"], ["2024-01-01", "5"]]⟩

def c9file : FileMemo :=
  ⟨"d/t1.csv", "text/csv", [["2024-05-01", "acct", "100", "523.10", "p", "n"]]⟩

def c9txn : Transaction :=
  ⟨[("filename", MetaVal.s "d/t1.csv"), ("lineno", MetaVal.n 1)],
    ⟨2024, 5, 1⟩, "*", some "p", some "n",
    [⟨"Unknown", some ⟨-100, "CNY"⟩⟩]⟩

def c9imp : Importer :=
  { config := [(Col.DATE, ColRef.idx 0), (Col.ACCOUNT, ColRef.idx 1),
      (Col.AMOUNT, ColRef.idx 2), (Col.BALANCE, ColRef.idx 3),
      (Col.PAYEE, ColRef.idx 4), (Col.NARRATION, ColRef.idx 5)]
    currency := "CNY"
    fname_pre := "t"
    skip_lines := 0
    drcr_dict := []
    refund_keyword := none
    account_map := plainTables }

/-- The metadata keys a transaction of the row loop can carry: the two keys
of data.new_metadata plus the optional date and time keys. -/
def metaKeysStd (m : Meta) : Prop :=
  ∀ kv ∈ m, kv.1 = "filename" ∨ kv.1 = "lineno" ∨ kv.1 = "date" ∨ kv.1 = "time"

/-- THEOREMS. -/

theorem bind_ok_iff {α β : Type} {x : Except String α} {f : α → Except String β}
    {b : β} :
    x >>= f = Except.ok b ↔ ∃ a, x = Except.ok a ∧ f a = Except.ok b := by
  cases x <;> simp [Bind.bind, Except.bind]

/-- C1: the specification says file_date returns the maximum primary date of
the file normally whenever the DATE role resolves.  The code cannot: line
214 passes an io.StringIO object to open(), which raises TypeError before
any row is read, so on this two-row file (dates 2024-03-01 and 2024-03-05,
DATE resolved at index 0) file_date raises instead of returning
2024-03-05. -/
theorem c1_file_date_type_error :
    file_date c1imp c1file false =
      Except.error
        "TypeError: expected str, bytes or os.PathLike object, not StringIO" := by
  rfl

/-- C3: evaluation at a file whose mapping declares the BALANCE role and
whose (single, hence last) row carries the balance cell 523.10 dated
2024-05-01.  The specified behaviour is a trailing Balance record dated
2024-05-02 at 523.10; the code returns only the transaction, because the
row loop never stores the balance cell into the transaction metadata, so
the balance branch always reads None and is dead. -/
theorem c3_balance_never_emitted :
    extract c3imp c3file false =
      Except.ok [Entry.txn
        ⟨[("filename", MetaVal.s "d/t1.csv"), ("lineno", MetaVal.n 1)],
          ⟨2024, 5, 1⟩, "*", some "p", some "n",
          [⟨"Unknown", some ⟨-100, "CNY"⟩⟩]⟩] := by
  rfl

/-- C4 counterexample: a two-row file whose first and last processed dates
are equal (both 2024-03-01).  The claim says the output keeps the original
file order in this case; the code reverses whenever the first date is not
strictly earlier than the last, so the returned sequence is the reversal
(row 2 first), which differs from the original order. -/
theorem c4_counterexample :
    extract c4imp c4file false = Except.ok [Entry.txn c4txn2, Entry.txn c4txn1] ∧
    (Except.ok [Entry.txn c4txn2, Entry.txn c4txn1] : Except String (List Entry)) ≠
      Except.ok [Entry.txn c4txn1, Entry.txn c4txn2] := by
  exact ⟨by rfl, by decide⟩

/-- C5 counterexample: a row whose single combined AMOUNT column parses to
zero.  The claim says get_amounts returns (None, None) under either
direction; the code only treats a row as zero when both sides of the pair
are populated strings, which never happens with a combined column, so the
row yields a signed zero amount instead. -/
theorem c5_counterexample :
    get_amounts [(Col.AMOUNT, 0)] ["0.00"] Drcr.DEBIT false =
        Except.ok (some 0, none) ∧
    get_amounts [(Col.AMOUNT, 0)] ["0.00"] Drcr.CREDIT false =
        Except.ok (none, some 0) ∧
    (Except.ok (some 0, none) : Except String (Option Rat × Option Rat)) ≠
      Except.ok (none, none) := by
  refine ⟨by rfl, by rfl, by decide⟩

theorem mappingGo_eq_find (t : String) (m : List (String × String)) :
    mappingGo (some t) m =
      Except.ok
        ((m.find? (fun kv => kv.1 != "DEFAULT" && reSearch kv.1 t)).map Prod.snd) := by
  induction m with
  | nil => rfl
  | cons kv rest ih =>
      obtain ⟨k, v⟩ := kv
      by_cases hk : k = "DEFAULT"
      · subst hk
        simpa [mappingGo, List.find?] using ih
      · have hb : (k != "DEFAULT") = true := by simp [bne_iff_ne, hk]
        by_cases hs : reSearch k t
        · simp [mappingGo, hk, List.find?, hs, hb]
        · simp only [mappingGo, if_neg hk]
          rw [if_neg hs]
          rw [ih]
          simp [List.find?, hs, hb]

/-- C7: for every keyword table with a DEFAULT entry, mapping_account
returns the value of the first non-DEFAULT key, in table order, whose
pattern (a bar-alternation matched anywhere in the text) matches, and the
DEFAULT value when no key matches. -/
theorem c7_mapping_account_first_match (m : List (String × String)) (t z : String)
    (hz : List.lookup "DEFAULT" m = some z) :
    mapping_account m (some t) =
      Except.ok
        (((m.find? (fun kv => kv.1 != "DEFAULT" && reSearch kv.1 t)).map
            Prod.snd).getD z) := by
  unfold mapping_account
  rw [hz, mappingGo_eq_find]
  rfl

/-- C7 witness: the table of the claim, checked in definition order, so the
text A resolves through the key A|B to X. -/
theorem c7_witness :
    List.lookup "DEFAULT" c7table = some "Z" ∧
    mapping_account c7table (some "A") = Except.ok "X" := by
  refine ⟨by rfl, ?_⟩
  rw [c7_mapping_account_first_match c7table "A" "Z" (by rfl)]
  rfl

/-- C8: get_DRCR_status applies exactly the documented priority order, the
first applicable step winning: (1) a present, non-empty flow-direction
marker cell is looked up in the table, an unknown value giving UNCERTAINTY
instead of failing; (2) otherwise a present status column is looked up with
the same miss tolerance; (3) otherwise a non-empty credit cell (checked
before debit) gives CREDIT, else a non-empty debit cell gives DEBIT;
(4) otherwise UNCERTAINTY. -/
theorem c8_drcr_priority (ic : List (Col × Nat)) (row : List String)
    (dict : List (String × Drcr)) :
    (∀ i c, lookupCol ic Col.DRCR = some i → row[i]? = some c → c ≠ "" →
      get_DRCR_status ic row dict =
        Except.ok ((List.lookup c dict).getD Drcr.UNCERTAINTY)) ∧
    (∀ j s, (lookupCol ic Col.DRCR = none ∨
        (∃ i, lookupCol ic Col.DRCR = some i ∧ row[i]? = some "")) →
      lookupCol ic Col.STATUS = some j → row[j]? = some s →
      get_DRCR_status ic row dict =
        Except.ok ((List.lookup s dict).getD Drcr.UNCERTAINTY)) ∧
    (∀ k c, (lookupCol ic Col.DRCR = none ∨
        (∃ i, lookupCol ic Col.DRCR = some i ∧ row[i]? = some "")) →
      lookupCol ic Col.STATUS = none →
      lookupCol ic Col.AMOUNT_CREDIT = some k → row[k]? = some c → c ≠ "" →
      get_DRCR_status ic row dict = Except.ok Drcr.CREDIT) ∧
    (∀ l d, (lookupCol ic Col.DRCR = none ∨
        (∃ i, lookupCol ic Col.DRCR = some i ∧ row[i]? = some "")) →
      lookupCol ic Col.STATUS = none →
      (lookupCol ic Col.AMOUNT_CREDIT = none ∨
        (∃ k, lookupCol ic Col.AMOUNT_CREDIT = some k ∧ row[k]? = some "")) →
      lookupCol ic Col.AMOUNT_DEBIT = some l → row[l]? = some d → d ≠ "" →
      get_DRCR_status ic row dict = Except.ok Drcr.DEBIT) ∧
    ((lookupCol ic Col.DRCR = none ∨
        (∃ i, lookupCol ic Col.DRCR = some i ∧ row[i]? = some "")) →
      lookupCol ic Col.STATUS = none →
      (lookupCol ic Col.AMOUNT_CREDIT = none ∨
        (∃ k, lookupCol ic Col.AMOUNT_CREDIT = some k ∧ row[k]? = some "")) →
      (lookupCol ic Col.AMOUNT_DEBIT = none ∨
        (∃ l, lookupCol ic Col.AMOUNT_DEBIT = some l ∧ row[l]? = some "")) →
      get_DRCR_status ic row dict = Except.ok Drcr.UNCERTAINTY) := by
  refine ⟨?_, ?_, ?_, ?_, ?_⟩
  · intro i c h1 h2 h3
    simp [get_DRCR_status, pyGet, h1, h2, h3, Bind.bind, Except.bind, pure,
      Except.pure]
  · intro j s hdr h1 h2
    rcases hdr with h | ⟨i, hi, hc⟩
    · simp [get_DRCR_status, drcrFromStatus, pyGet, h, h1, h2, Bind.bind,
        Except.bind, pure, Except.pure]
    · simp [get_DRCR_status, drcrFromStatus, pyGet, hi, hc, h1, h2, Bind.bind,
        Except.bind, pure, Except.pure]
  · intro k c hdr h2 h3 h4 h5
    rcases hdr with h1 | ⟨i, hi, hc0⟩ <;>
      simp [get_DRCR_status, drcrFromStatus, drcrFromStatus.drcrFromDebitCell,
        pyGet, Bind.bind, Except.bind, pure, Except.pure, *]
  · intro l d hdr h2 hcr h3 h4 h5
    rcases hdr with h1 | ⟨i, hi, hc0⟩ <;> rcases hcr with hcA | ⟨k, hk, hc⟩ <;>
      simp [get_DRCR_status, drcrFromStatus, drcrFromStatus.drcrFromDebitCell,
        pyGet, Bind.bind, Except.bind, pure, Except.pure, *]
  · intro hdr h2 hcr hdb
    rcases hdr with h1 | ⟨i, hi, hc0⟩ <;> rcases hcr with hcA | ⟨k, hk, hc⟩ <;>
      rcases hdb with h2b | ⟨l, hl, hc2⟩ <;>
      simp [get_DRCR_status, drcrFromStatus, drcrFromStatus.drcrFromDebitCell,
        pyGet, Bind.bind, Except.bind, pure, Except.pure, *]

/-- C8 witness: the four priority steps evaluated at concrete rows through
the priority theorem: a non-empty marker wins (with a lookup miss giving
UNCERTAINTY), an empty marker falls through to the status column, with
neither signal the populated credit cell beats the populated debit cell,
and a present-but-empty marker with no status column also falls through to
the amount-cell inference. -/
theorem c8_witness :
    get_DRCR_status [(Col.DRCR, 0)] ["支出"] [("支出", Drcr.DEBIT)] =
        Except.ok Drcr.DEBIT ∧
    get_DRCR_status [(Col.DRCR, 0)] ["mystery"] [("支出", Drcr.DEBIT)] =
        Except.ok Drcr.UNCERTAINTY ∧
    get_DRCR_status [(Col.DRCR, 0), (Col.STATUS, 1)] ["", "收入"]
        [("收入", Drcr.CREDIT)] = Except.ok Drcr.CREDIT ∧
    get_DRCR_status [(Col.AMOUNT_CREDIT, 0), (Col.AMOUNT_DEBIT, 1)] ["3", "4"] [] =
        Except.ok Drcr.CREDIT ∧
    get_DRCR_status [(Col.DRCR, 0), (Col.AMOUNT_DEBIT, 1)] ["", "4"] [] =
        Except.ok Drcr.DEBIT ∧
    get_DRCR_status [] [] [] = Except.ok Drcr.UNCERTAINTY := by
  refine ⟨?_, ?_, ?_, ?_, ?_, ?_⟩
  · exact (c8_drcr_priority [(Col.DRCR, 0)] ["支出"] [("支出", Drcr.DEBIT)]).1
      0 "支出" (by rfl) (by rfl) (by decide)
  · exact (c8_drcr_priority [(Col.DRCR, 0)] ["mystery"] [("支出", Drcr.DEBIT)]).1
      0 "mystery" (by rfl) (by rfl) (by decide)
  · exact (c8_drcr_priority [(Col.DRCR, 0), (Col.STATUS, 1)] ["", "收入"]
      [("收入", Drcr.CREDIT)]).2.1 1 "收入" (Or.inr ⟨0, by rfl, by rfl⟩)
      (by rfl) (by rfl)
  · exact (c8_drcr_priority [(Col.AMOUNT_CREDIT, 0), (Col.AMOUNT_DEBIT, 1)]
      ["3", "4"] []).2.2.1 0 "3" (Or.inl (by rfl)) (by rfl) (by rfl) (by rfl)
      (by decide)
  · exact (c8_drcr_priority [(Col.DRCR, 0), (Col.AMOUNT_DEBIT, 1)]
      ["", "4"] []).2.2.2.1 1 "4" (Or.inr ⟨0, by rfl, by rfl⟩) (by rfl)
      (Or.inl (by rfl)) (by rfl) (by rfl) (by decide)
  · exact (c8_drcr_priority [] [] []).2.2.2.2 (Or.inl (by rfl)) (by rfl)
      (Or.inl (by rfl)) (Or.inl (by rfl))

/-- C6: for an UNCERTAINTY row amount, when the account label splits on the
hyphen into exactly two tokens the code emits a posting at the account
resolved from the second token carrying the negated resolved amount and a
bare posting at the account resolved from the first token; any other label
shape falls back to one posting at the assets DEFAULT account carrying the
raw resolved amount. -/
theorem c6_uncertain_transfer (imp : Importer) (account : Option String)
    (payee narration : Option String) (txType : String) (amount : Rat) :
    (∀ acc a0 a1 A B, account = some acc → pySplit acc '-' = [a0, a1] →
      mapping_account imp.account_map.assets (some a1) = Except.ok A →
      mapping_account imp.account_map.assets (some a0) = Except.ok B →
      buildPostings imp Drcr.UNCERTAINTY account payee narration txType amount =
        Except.ok [⟨A, some ⟨-amount, imp.currency⟩⟩, ⟨B, none⟩]) ∧
    (∀ dflt, (∀ acc, account = some acc → (pySplit acc '-').length ≠ 2) →
      List.lookup "DEFAULT" imp.account_map.assets = some dflt →
      buildPostings imp Drcr.UNCERTAINTY account payee narration txType amount =
        Except.ok [⟨dflt, some ⟨amount, imp.currency⟩⟩]) := by
  constructor
  · intro acc a0 a1 A B hacc hsplit hA hB
    subst hacc
    simp [buildPostings, hsplit, hA, hB, Amount.neg, Bind.bind, Except.bind,
      pure, Except.pure]
  · intro dflt hlen hdef
    cases account with
    | none => simp [buildPostings, defaultAssetsPosting, hdef]
    | some acc =>
        have hne := hlen acc rfl
        cases hsp : pySplit acc '-' with
        | nil => simp [buildPostings, hsp, defaultAssetsPosting, hdef]
        | cons x xs =>
            cases xs with
            | nil => simp [buildPostings, hsp, defaultAssetsPosting, hdef]
            | cons y ys =>
                cases ys with
                | nil => exact absurd (by rw [hsp]; rfl) hne
                | cons z zs =>
                    simp [buildPostings, hsp, defaultAssetsPosting, hdef]

/-- C6 witness: the transfer label of the claim with the assets table of
config.py and amount 100: the second token resolves through the key
0000|春田花花银行 to the credit-card account, posted at -100, and the first
token resolves to the wallet account, posted bare. -/
theorem c6_witness :
    buildPostings c6imp Drcr.UNCERTAINTY (some "零钱-0000|春田花花银行") none none
        "" 100 =
      Except.ok [⟨"Liabilities:CreditCard:SFFB:0000", some ⟨-100, "CNY"⟩⟩,
        ⟨"Assets:Wechat:MiniFund", none⟩] := by
  exact (c6_uncertain_transfer c6imp (some "零钱-0000|春田花花银行") none none
      "" 100).1 "零钱-0000|春田花花银行" "零钱" "0000|春田花花银行"
    "Liabilities:CreditCard:SFFB:0000" "Assets:Wechat:MiniFund"
    (by rfl) (by rfl) (by rfl) (by rfl)

theorem resolveFields_length (header : List String) :
    ∀ (cfg : List (Col × ColRef)) (res : List (Col × Nat)),
      resolveFields header cfg = Except.ok res → res.length = cfg.length := by
  intro cfg
  induction cfg with
  | nil =>
      intro res h
      simp only [resolveFields, Except.ok.injEq] at h
      subst h
      rfl
  | cons fc rest ih =>
      intro res h
      obtain ⟨ft, f⟩ := fc
      cases f with
      | name s =>
          cases hf : fieldMapLookup header s with
          | none =>
              simp [resolveFields, hf, Bind.bind, Except.bind] at h
          | some i =>
              simp only [resolveFields, hf, pure_bind] at h
              rw [bind_ok_iff] at h
              obtain ⟨tail, htail, hres⟩ := h
              simp only [pure, Except.pure, Except.ok.injEq] at hres
              rw [← hres]
              simp [ih tail htail]
      | idx i =>
          simp only [resolveFields, pure_bind] at h
          rw [bind_ok_iff] at h
          obtain ⟨tail, htail, hres⟩ := h
          simp only [pure, Except.pure, Except.ok.injEq] at hres
          rw [← hres]
          simp [ih tail htail]

theorem normalize_config_ok (cfg : List (Col × ColRef))
    (head : List (List String)) (skip : Nat) (hh : Bool)
    (ic : List (Col × Nat)) (b : Bool)
    (h : normalize_config cfg head skip hh = Except.ok (ic, b)) :
    ic.length = cfg.length ∧ b = hh := by
  cases hh with
  | true =>
      cases hhd : (strip_blank (head.drop skip)).head? with
      | none =>
          simp [normalize_config, hhd, Bind.bind, Except.bind] at h
      | some hdr =>
          simp only [normalize_config, hhd, if_true, pure_bind] at h
          rw [bind_ok_iff] at h
          obtain ⟨res, hres, h2⟩ := h
          simp only [pure, Except.pure, Except.ok.injEq, Prod.mk.injEq] at h2
          obtain ⟨h2a, h2b⟩ := h2
          exact ⟨h2a ▸ resolveFields_length hdr cfg res hres, h2b.symm⟩
  | false =>
      cases hany : cfg.any (fun fc =>
          match fc.2 with | ColRef.name _ => true | ColRef.idx _ => false) with
      | true => simp [normalize_config, hany] at h
      | false =>
          simp only [normalize_config, hany, Bool.false_eq_true, if_false,
            pure, Except.pure, Except.ok.injEq, Prod.mk.injEq] at h
          obtain ⟨h1, h2⟩ := h
          constructor
          · rw [← h1]
            simp
          · exact h2.symm

/-- C2 counterexample: a candidate file whose MIME type and name prefix both
match but whose header lacks the declared date column.  The claim says
identify reports False; the code propagates the KeyError raised while
resolving the column name, so identify fails instead of returning False. -/
theorem c2_counterexample :
    identify c2imp c2file true =
      Except.error "KeyError: field not found in header" := by
  rfl

/-- C2 amended: identify returns False on a MIME mismatch or a name-prefix
mismatch, returns True whenever the column mapping resolves against the
file, and when resolution fails (a declared named column absent from the
header) it propagates that exception to the caller instead of returning
False. -/
theorem c2_identify_amended (imp : Importer) (file : FileMemo) (hh : Bool) :
    (file.mimetype ≠ "text/csv" → identify imp file hh = Except.ok false) ∧
    (file.mimetype = "text/csv" →
      pyStartsWith (basename file.name) imp.fname_pre = false →
      identify imp file hh = Except.ok false) ∧
    (∀ ic b, file.mimetype = "text/csv" →
      pyStartsWith (basename file.name) imp.fname_pre = true →
      normalize_config imp.config file.contents imp.skip_lines hh =
        Except.ok (ic, b) →
      identify imp file hh = Except.ok true) ∧
    (∀ e, file.mimetype = "text/csv" →
      pyStartsWith (basename file.name) imp.fname_pre = true →
      normalize_config imp.config file.contents imp.skip_lines hh =
        Except.error e →
      identify imp file hh = Except.error e) := by
  refine ⟨?_, ?_, ?_, ?_⟩
  · intro h
    simp [identify, h, pure, Except.pure]
  · intro h1 h2
    simp [identify, h1, h2, pure, Except.pure]
  · intro ic b h1 h2 h3
    have hlen := (normalize_config_ok imp.config file.contents imp.skip_lines
      hh ic b h3).1
    simp [identify, h1, h2, h3, hlen, Bind.bind, Except.bind, pure, Except.pure]
  · intro e h1 h2 h3
    simp [identify, h1, h2, h3, Bind.bind, Except.bind, pure, Except.pure]

/-- C2 witness: the amended theorem instantiated, with a wrong MIME type
rejected as False and a fully-resolving index configuration accepted as
True. -/
theorem c2_witness :
    identify c2okimp c2badfile false = Except.ok false ∧
    identify c2okimp ⟨"d/stmt1.csv", "text/csv", [["2024-01-01"]]⟩ false =
      Except.ok true := by
  constructor
  · exact (c2_identify_amended c2okimp c2badfile false).1 (by decide)
  · exact (c2_identify_amended c2okimp
      ⟨"d/stmt1.csv", "text/csv", [["2024-01-01"]]⟩ false).2.2.1
      [(Col.DATE, 0)] false (by rfl) (by rfl) (by rfl)

/-- C4 amended: whenever the pipeline stages of extract succeed, the output
is the balance phase applied to the loop entries reversed exactly when the
first processed date is not strictly earlier than the last (so equal first
and last dates also reverse; a single-row file reverses trivially to the
same sequence). -/
theorem c4_order_amended (imp : Importer) (file : FileMemo) (hh : Bool)
    (ic : List (Col × Nat)) (hb : Bool) (rows1 rows2 : List (List String))
    (st : LoopState) (fd ld : Date)
    (h1 : normalize_config imp.config file.contents imp.skip_lines hh =
      Except.ok (ic, hb))
    (h2 : skipRows imp.skip_lines (strip_blank file.contents) = Except.ok rows1)
    (h3 : skipHeader hb rows1 = Except.ok rows2)
    (h4 : extractLoop imp ic file.name 1 rows2 initState = Except.ok st)
    (h5 : firstLastDate ic st.first_row = Except.ok fd)
    (h6 : firstLastDate ic st.last_row = Except.ok ld) :
    extract imp file hh =
      balancePhase imp ic file.name st
        (if fd.key < ld.key then st.entries else st.entries.reverse) := by
  simp [extract, h1, h2, h3, h4, h5, h6, Bind.bind, Except.bind]

/-- C4 witness: a single-row file run through the amended ordering theorem;
the first and last processed dates coincide, so the branch taken is the
reversal of the singleton entry list. -/
theorem c4_order_witness :
    extract c4imp c4wfile false =
      balancePhase c4imp [(Col.DATE, 0), (Col.AMOUNT, 1)] "d/t2.csv" c4wst
        (if (Date.mk 2024 3 1).key < (Date.mk 2024 3 1).key then c4wst.entries
         else c4wst.entries.reverse) := by
  exact c4_order_amended c4imp c4wfile false [(Col.DATE, 0), (Col.AMOUNT, 1)]
    false [["2024-03-01", "10"]] [["2024-03-01", "10"]] c4wst
    ⟨2024, 3, 1⟩ ⟨2024, 3, 1⟩ (by rfl) (by rfl) (by rfl) (by rfl) (by rfl)
    (by rfl)

/-- C5 amended: with allow_zero_amounts false, a row whose separate debit
and credit cells are both present and both parse to zero is signalled as
(None, None); a row whose single combined AMOUNT cell parses to the number
zero is not skipped by that test and yields the signed zero amount on the
side selected by the direction (negated on the debit side). -/
theorem c5_zero_amounts_amended (ic : List (Col × Nat)) (row : List String)
    (drcr : Drcr) :
    (∀ i j ds cs,
      lookupCol ic Col.AMOUNT = none →
      lookupCol ic Col.AMOUNT_DEBIT = some i →
      lookupCol ic Col.AMOUNT_CREDIT = some j →
      row[i]? = some ds → row[j]? = some cs →
      cast_to_decimal (some ds) = Except.ok (some 0) →
      cast_to_decimal (some cs) = Except.ok (some 0) →
      get_amounts ic row drcr false = Except.ok (none, none)) ∧
    (∀ k ds,
      lookupCol ic Col.AMOUNT = some k →
      row[k]? = some ds → ds ≠ "" →
      cast_to_decimal (some ds) = Except.ok (some 0) →
      get_amounts ic row drcr false =
        Except.ok (if drcr = Drcr.CREDIT then ((none : Option Rat), some 0)
          else (some 0, (none : Option Rat)))) := by
  constructor
  · intro i j ds cs hA hD hC hrd hrc hzd hzc
    simp [get_amounts, pyGet, hA, hD, hC, hrd, hrc, hzd, hzc, Bind.bind,
      Except.bind, pure, Except.pure]
  · intro k ds hA hrd hne hzd
    by_cases hcr : drcr = Drcr.CREDIT
    · simp [get_amounts, pyGet, hA, hrd, hne, hzd, hcr, Bind.bind, Except.bind,
        pure, Except.pure]
    · simp [get_amounts, pyGet, hA, hrd, hne, hzd, hcr, Bind.bind, Except.bind,
        pure, Except.pure]

/-- C5 witness: both separate amount cells parsing to zero signal the row
as non-monetary, while a combined AMOUNT cell parsing to zero yields the
signed zero amount instead of the skip signal. -/
theorem c5_zero_witness :
    get_amounts [(Col.AMOUNT_DEBIT, 0), (Col.AMOUNT_CREDIT, 1)] ["0.00", "0"]
        Drcr.DEBIT false = Except.ok (none, none) ∧
    get_amounts [(Col.AMOUNT, 0)] ["0.000"] Drcr.CREDIT false =
      Except.ok (none, some 0) := by
  constructor
  · exact (c5_zero_amounts_amended [(Col.AMOUNT_DEBIT, 0), (Col.AMOUNT_CREDIT, 1)]
      ["0.00", "0"] Drcr.DEBIT).1 0 1 "0.00" "0" (by rfl) (by rfl) (by rfl)
      (by rfl) (by rfl) (by rfl) (by rfl)
  · simpa using (c5_zero_amounts_amended [(Col.AMOUNT, 0)] ["0.000"]
      Drcr.CREDIT).2 0 "0.000" (by rfl) (by rfl) (by decide) (by rfl)

theorem extractLoop_noQualifying (imp : Importer) (ic : List (Col × Nat))
    (fname : String) :
    ∀ (rows : List (List String)) (idx : Nat) (st : LoopState),
      noQualifyingRow rows = true →
      ∃ st', extractLoop imp ic fname idx rows st = Except.ok st' ∧
        st'.first_row = st.first_row ∧ st'.entries = st.entries := by
  intro rows
  induction rows with
  | nil =>
      intro idx st _
      exact ⟨st, rfl, rfl, rfl⟩
  | cons r rest ih =>
      intro idx st h
      by_cases hr : r = []
      · subst hr
        simp only [noQualifyingRow, if_pos rfl] at h
        obtain ⟨st', h1, h2, h3⟩ := ih (idx + 1) { st with lastIndex := idx } h
        exact ⟨st', by simpa [extractLoop] using h1, h2, h3⟩
      · by_cases hc : pyStartsWith (firstCell r) "#" = true
        · simp only [noQualifyingRow, if_neg hr, hc, if_true] at h
          obtain ⟨st', h1, h2, h3⟩ := ih (idx + 1) { st with lastIndex := idx } h
          refine ⟨st', ?_, h2, h3⟩
          simpa [extractLoop, hr, hc] using h1
        · have hd : pyStartsWith (firstCell r) "-----------" = true := by
            simpa [noQualifyingRow, if_neg hr, hc] using h
          refine ⟨{ st with lastIndex := idx }, ?_, rfl, rfl⟩
          simp [extractLoop, hr, hc, hd]

theorem firstLastDate_none_error (ic : List (Col × Nat)) :
    ∃ m, firstLastDate ic none = Except.error m := by
  cases hdc : lookupCol ic Col.DATE with
  | none =>
      exact ⟨"TypeError: parser must be a string or character stream",
        by simp [firstLastDate, hdc, parse_date_liberally]⟩
  | some i =>
      exact ⟨"TypeError: NoneType is not subscriptable",
        by simp [firstLastDate, hdc]⟩

/-- C10: when every line after the skipped garbage lines and the optional
header is blank, a `#` comment, or at or after the dash separator row, no
row is ever captured as first_row, and extract raises (the first/last date
computation dereferences None) instead of returning an empty list. -/
theorem c10_no_rows_raises (imp : Importer) (file : FileMemo) (hh : Bool)
    (h : noQualifyingRow
      (((strip_blank file.contents).drop imp.skip_lines).drop
        (if hh then 1 else 0)) = true) :
    ∃ msg, extract imp file hh = Except.error msg := by
  cases hnorm : normalize_config imp.config file.contents imp.skip_lines hh with
  | error e =>
      exact ⟨e, by simp [extract, hnorm, Bind.bind, Except.bind]⟩
  | ok p =>
      obtain ⟨ic, b⟩ := p
      have hb : b = hh :=
        (normalize_config_ok imp.config file.contents imp.skip_lines hh ic b
          hnorm).2
      subst hb
      by_cases hlen : (strip_blank file.contents).length < imp.skip_lines
      · refine ⟨"StopIteration", ?_⟩
        simp [extract, hnorm, skipRows, hlen, Bind.bind, Except.bind]
      · have hskip : skipRows imp.skip_lines (strip_blank file.contents) =
            Except.ok ((strip_blank file.contents).drop imp.skip_lines) := by
          simp [skipRows, hlen]
        cases b with
        | true =>
            cases hrows : (strip_blank file.contents).drop imp.skip_lines with
            | nil =>
                refine ⟨"StopIteration", ?_⟩
                simp [extract, hnorm, hskip, hrows, skipHeader, Bind.bind,
                  Except.bind]
            | cons r0 rest =>
                have hnq : noQualifyingRow rest = true := by
                  simpa [hrows] using h
                obtain ⟨st', h1, h2, h3⟩ :=
                  extractLoop_noQualifying imp ic file.name rest 1 initState hnq
                obtain ⟨m, hm⟩ := firstLastDate_none_error ic
                refine ⟨m, ?_⟩
                have h2' : st'.first_row = none := h2
                simp [extract, hnorm, hskip, hrows, skipHeader, h1, h2', hm,
                  Bind.bind, Except.bind]
        | false =>
            have hnq : noQualifyingRow
                ((strip_blank file.contents).drop imp.skip_lines) = true := by
              simpa using h
            obtain ⟨st', h1, h2, h3⟩ :=
              extractLoop_noQualifying imp ic file.name
                ((strip_blank file.contents).drop imp.skip_lines) 1 initState hnq
            obtain ⟨m, hm⟩ := firstLastDate_none_error ic
            refine ⟨m, ?_⟩
            have h2' : st'.first_row = none := h2
            simp [extract, hnorm, hskip, skipHeader, h1, h2', hm, Bind.bind,
              Except.bind]

/-- C10 witness: a file whose rows are a comment, a blank line and a dash
separator (followed by an unreachable data row): no data row qualifies and
extract fails instead of returning an empty sequence. -/
theorem c10_witness :
    noQualifyingRow (((strip_blank c10file.contents).drop c1imp.skip_lines).drop
      (if false then 1 else 0)) = true ∧
    ∃ msg, extract c1imp c10file false = Except.error msg := by
  constructor
  · rfl
  · exact c10_no_rows_raises c1imp c10file false (by rfl)

theorem getLast?_mem_list {α : Type} : ∀ (l : List α) (a : α),
    l.getLast? = some a → a ∈ l
  | [], _, h => by simp [List.getLast?] at h
  | [x], a, h => by
      simp only [List.getLast?_singleton, Option.some.injEq] at h
      simp [h]
  | x :: y :: rest, a, h => by
      rw [List.getLast?_cons_cons] at h
      exact List.mem_cons_of_mem x (getLast?_mem_list (y :: rest) a h)

theorem buildMeta_keys (fname : String) (idx : Nat) (td tt : Option String)
    (m : Meta) (h : buildMeta fname idx td tt = Except.ok m) :
    metaKeysStd m := by
  unfold buildMeta at h
  cases td with
  | none =>
      cases tt with
      | none =>
          simp only [Bind.bind, Except.bind, pure, Except.pure,
            Except.ok.injEq] at h
          subst h
          simp [metaKeysStd]
      | some t =>
          cases hpt : parseTimeText t with
          | error e =>
              simp [hpt, Bind.bind, Except.bind, pure, Except.pure] at h
          | ok tv =>
              simp only [hpt, Bind.bind, Except.bind, pure, Except.pure,
                Except.ok.injEq] at h
              subst h
              simp [metaKeysStd]
  | some d =>
      cases hpd : parse_date_liberally (some d) with
      | error e => simp [hpd, Bind.bind, Except.bind, pure, Except.pure] at h
      | ok dv =>
          cases tt with
          | none =>
              simp only [hpd, Bind.bind, Except.bind, pure, Except.pure,
                Except.ok.injEq] at h
              subst h
              simp [metaKeysStd]
          | some t =>
              cases hpt : parseTimeText t with
              | error e =>
                  simp [hpd, hpt, Bind.bind, Except.bind, pure,
                    Except.pure] at h
              | ok tv =>
                  simp only [hpd, hpt, Bind.bind, Except.bind, pure,
                    Except.pure, Except.ok.injEq] at h
                  subst h
                  simp [metaKeysStd]

theorem processRow_meta (imp : Importer) (ic : List (Col × Nat)) (fname : String)
    (idx : Nat) (row : List String) (t : Transaction) (a : Option String)
    (h : processRow imp ic fname idx row = Except.ok (some t, a)) :
    metaKeysStd t.meta := by
  simp only [processRow, bind_ok_iff] at h
  obtain ⟨s0, _, h⟩ := h
  obtain ⟨ds, _, h⟩ := h
  obtain ⟨td, _, h⟩ := h
  obtain ⟨tt, _, h⟩ := h
  obtain ⟨acc, _, h⟩ := h
  obtain ⟨ty0, _, h⟩ := h
  obtain ⟨p0, _, h⟩ := h
  obtain ⟨n0, _, h⟩ := h
  obtain ⟨m, hm, h⟩ := h
  obtain ⟨d, _, h⟩ := h
  obtain ⟨dr, _, h⟩ := h
  obtain ⟨amts, _, h⟩ := h
  obtain ⟨ad, ac⟩ := amts
  cases ad with
  | none =>
      cases ac with
      | none =>
          rw [if_pos ⟨rfl, rfl⟩] at h
          simp [pure, Except.pure] at h
      | some a2 =>
          rw [if_neg (by simp)] at h
          simp only [pure_bind, bind_ok_iff] at h
          obtain ⟨p2, _, h⟩ := h
          simp only [pure, Except.pure, Except.ok.injEq, Prod.mk.injEq,
            Option.some.injEq] at h
          obtain ⟨ht, _⟩ := h
          rw [← ht]
          exact buildMeta_keys fname idx td tt m hm
  | some a1 =>
      cases ac with
      | none =>
          rw [if_neg (by simp)] at h
          simp only [pure_bind, bind_ok_iff] at h
          obtain ⟨p1, _, h⟩ := h
          simp only [pure, Except.pure, Except.ok.injEq, Prod.mk.injEq,
            Option.some.injEq] at h
          obtain ⟨ht, _⟩ := h
          rw [← ht]
          exact buildMeta_keys fname idx td tt m hm
      | some a2 =>
          rw [if_neg (by simp)] at h
          simp only [bind_ok_iff] at h
          obtain ⟨p1, _, h⟩ := h
          obtain ⟨p2, _, h⟩ := h
          simp only [pure, Except.pure, Except.ok.injEq, Prod.mk.injEq,
            Option.some.injEq] at h
          obtain ⟨ht, _⟩ := h
          rw [← ht]
          exact buildMeta_keys fname idx td tt m hm

theorem extractLoop_meta (imp : Importer) (ic : List (Col × Nat))
    (fname : String) :
    ∀ (rows : List (List String)) (idx : Nat) (st st' : LoopState),
      extractLoop imp ic fname idx rows st = Except.ok st' →
      (∀ t ∈ st.entries, metaKeysStd t.meta) →
      ∀ t ∈ st'.entries, metaKeysStd t.meta := by
  intro rows
  induction rows with
  | nil =>
      intro idx st st' h hall
      simp only [extractLoop, Except.ok.injEq] at h
      subst h
      exact hall
  | cons r rest ih =>
      intro idx st st' h hall
      by_cases hr : r = []
      · subst hr
        simp only [extractLoop, if_pos rfl] at h
        exact ih _ _ _ h hall
      · by_cases hc : pyStartsWith (firstCell r) "#" = true
        · simp only [extractLoop, if_neg hr, hc, if_true] at h
          exact ih _ _ _ h hall
        · by_cases hd : pyStartsWith (firstCell r) "-----------" = true
          · simp only [extractLoop, if_neg hr, hc, hd, if_true, if_false,
              Bool.false_eq_true, Except.ok.injEq] at h
            subst h
            exact hall
          · simp only [extractLoop, if_neg hr, hc, hd, Bool.false_eq_true,
              if_false, bind_ok_iff] at h
            obtain ⟨pr, hpr, hrec⟩ := h
            obtain ⟨otxn, acc⟩ := pr
            refine ih _ _ _ hrec ?_
            intro t ht
            cases otxn with
            | none => exact hall t (by simpa using ht)
            | some t0 =>
                rcases (by simpa using ht : t ∈ st.entries ∨ t = t0) with h1 | h1
                · exact hall t h1
                · subst h1
                  exact processRow_meta imp ic fname idx r t acc hpr

theorem metaKeysStd_lookup_balance (m : Meta) (h : metaKeysStd m) :
    List.lookup "balance" m = none := by
  induction m with
  | nil => rfl
  | cons kv rest ih =>
      obtain ⟨k, v⟩ := kv
      have hk := h (k, v) (List.mem_cons_self _ _)
      have hne : ("balance" == k) = false := by
        rcases hk with h1 | h1 | h1 | h1 <;> (dsimp at h1; subst h1; decide)
      simp only [List.lookup, hne]
      exact ih (fun kv hkv => h kv (List.mem_cons_of_mem _ hkv))

theorem metaKeysStd_filter (m : Meta) (p : String × MetaVal → Bool)
    (h : metaKeysStd m) : metaKeysStd (m.filter p) :=
  fun kv hkv => h kv (List.mem_of_mem_filter hkv)

theorem balancePhase_all_txn (imp : Importer) (ic : List (Col × Nat))
    (fname : String) (st : LoopState) (txns : List Transaction)
    (entries : List Entry)
    (htxns : ∀ t ∈ txns, metaKeysStd t.meta)
    (h : balancePhase imp ic fname st txns = Except.ok entries) :
    ∀ e ∈ entries, ∃ t, e = Entry.txn t ∧ metaKeysStd t.meta := by
  have hb : balancePhase imp ic fname st txns =
      Except.ok ((txns.map Entry.txn).map popBalanceMeta) := by
    unfold balancePhase
    by_cases hcnd : (lookupCol ic Col.BALANCE).isSome ∧ txns ≠ []
    · cases hgl : txns.getLast? with
      | none =>
          simp [hcnd, hgl, Bind.bind, Except.bind, pure, Except.pure]
      | some entry =>
          have hmem : entry ∈ txns := getLast?_mem_list txns entry hgl
          have hlk : List.lookup "balance" entry.meta = none :=
            metaKeysStd_lookup_balance entry.meta (htxns entry hmem)
          simp [hcnd, hgl, hlk, Bind.bind, Except.bind, pure, Except.pure]
    · simp [hcnd, Bind.bind, Except.bind, pure, Except.pure]
  rw [hb] at h
  have he : entries = (txns.map Entry.txn).map popBalanceMeta :=
    (Except.ok.inj h).symm
  subst he
  intro e he
  simp only [List.mem_map] at he
  obtain ⟨e0, he0, rfl⟩ := he
  obtain ⟨t, ht, rfl⟩ := he0
  refine ⟨{ t with meta := t.meta.filter (fun kv => kv.1 ≠ "balance") },
    rfl, ?_⟩
  exact metaKeysStd_filter t.meta _ (htxns t ht)

/-- C9: every entry of a successful extract is a transaction (never a
Balance record) whose metadata keys come only from data.new_metadata plus
the optional date and time keys; in particular no transaction ever carries
a balance metadata key, so the balance branch of extract always reads None.
This holds even when the mapping declares the BALANCE role and rows carry
non-empty balance cells, because the row loop never stores that cell. -/
theorem c9_no_balance_metadata (imp : Importer) (file : FileMemo) (hh : Bool)
    (entries : List Entry)
    (h : extract imp file hh = Except.ok entries) :
    ∀ e ∈ entries, ∃ t, e = Entry.txn t ∧ metaKeysStd t.meta ∧
      List.lookup "balance" t.meta = none := by
  simp only [extract, bind_ok_iff] at h
  obtain ⟨⟨ic, b⟩, hnorm, h⟩ := h
  obtain ⟨rows1, hr1, h⟩ := h
  obtain ⟨rows2, hr2, h⟩ := h
  obtain ⟨st, hloop, h⟩ := h
  obtain ⟨fd, hfd, h⟩ := h
  obtain ⟨ld, hld, h⟩ := h
  have hst : ∀ t ∈ st.entries, metaKeysStd t.meta :=
    extractLoop_meta imp ic file.name rows2 1 initState st hloop
      (by intro t ht; simp [initState] at ht)
  have htx : ∀ t ∈ (if fd.key < ld.key then st.entries else st.entries.reverse),
      metaKeysStd t.meta := by
    intro t ht
    split at ht
    · exact hst t ht
    · exact hst t (List.mem_reverse.mp ht)
  have hall := balancePhase_all_txn imp ic file.name st _ entries htx h
  intro e he
  obtain ⟨t, rfl, hmk⟩ := hall e he
  exact ⟨t, rfl, hmk, metaKeysStd_lookup_balance t.meta hmk⟩

/-- C9 witness: a file whose mapping declares BALANCE and whose row carries
a non-empty balance cell still produces only a transaction with the
standard metadata keys and no balance key. -/
theorem c9_witness :
    extract c9imp c9file false = Except.ok [Entry.txn c9txn] ∧
    ∀ e ∈ [Entry.txn c9txn], ∃ t, e = Entry.txn t ∧ metaKeysStd t.meta ∧
      List.lookup "balance" t.meta = none := by
  constructor
  · rfl
  · exact c9_no_balance_metadata c9imp c9file false [Entry.txn c9txn] (by rfl)

end CSVImp
